import Mathlib

/-!
Verification of the yandexgpt-python client SDK: a shallow embedding of
`config_manager.py`, `thread.py` and `yandex_gpt.py` (credential resolution,
derived request accessors, the async poll loop, and the conversation-thread
run state machine), with theorems settling the specification's claims.

Python `Optional[str]` fields are modelled as `Option String`; Python
truthiness (`None` and `""` are falsy) is modelled by `truthy`. Python
exceptions raised by the embedded functions are modelled by `Except String`
carrying the exception's message. Network calls (the JWT-to-IAM exchange,
the completion POSTs and the poll GETs) are modelled by explicit oracles:
their outcomes are parameters of the embedded functions.
-/

/-- Python truthiness of an `Optional[str]` value: `None` and the empty
string are falsy, every other string is truthy. -/
def truthy : Option String → Bool
  | none => false
  | some s => !s.isEmpty

/-- `available_models` from `config_manager.py`: the fixed list of allowed
model names. -/
def available_models : List String :=
  ["yandexgpt", "yandexgpt-lite", "summarization"]

/-- The configuration state of `YandexGPTConfigManagerBase`: model type,
catalog id, IAM token and API key, each an `Optional[str]`. -/
structure YandexGPTConfigManagerBase where
  model_type : Option String
  catalog_id : Option String
  iam_token : Option String
  api_key : Option String
deriving Repr, DecidableEq

/-- `completion_request_authorization_field` from `config_manager.py`:
"Bearer {iam_token}" when the IAM token is truthy, else "Api-Key {api_key}"
when the API key is truthy, else a ValueError. -/
def completion_request_authorization_field
    (c : YandexGPTConfigManagerBase) : Except String String :=
  if truthy c.iam_token then
    .ok ("Bearer " ++ c.iam_token.getD "")
  else if truthy c.api_key then
    .ok ("Api-Key " ++ c.api_key.getD "")
  else
    .error "IAM token or API key is not set"

/-- `completion_request_catalog_id_field` from `config_manager.py`: the
catalog id when truthy, else a ValueError. -/
def completion_request_catalog_id_field
    (c : YandexGPTConfigManagerBase) : Except String String :=
  if truthy c.catalog_id then
    .ok (c.catalog_id.getD "")
  else
    .error "Catalog ID is not set"

/-- Membership test `self.model_type in available_models` from
`completion_request_model_type_uri_field`; a `None` model type is not a
member. -/
def model_type_in_available (c : YandexGPTConfigManagerBase) : Bool :=
  match c.model_type with
  | some m => available_models.contains m
  | none => false

/-- `completion_request_model_type_uri_field` from `config_manager.py`:
ValueError when the model type is not in `available_models`; otherwise
"gpt://{catalog_id}/{model_type}/latest" when both model type and catalog
id are truthy, else a ValueError. -/
def completion_request_model_type_uri_field
    (c : YandexGPTConfigManagerBase) : Except String String :=
  if !model_type_in_available c then
    .error ("Model type " ++ (c.model_type.getD "None") ++ " is not supported")
  else if truthy c.model_type && truthy c.catalog_id then
    .ok ("gpt://" ++ c.catalog_id.getD "" ++ "/" ++ c.model_type.getD "" ++ "/latest")
  else
    .error "Model type or catalog ID is not set"

/-- The process environment, as a partial map from variable names to
values; `os.environ.get(name, default)` is `envGet`. -/
def Env : Type := String → Option String

/-- `os.environ.get(name, default)` where the default is itself an
`Optional[str]` field. -/
def envGet (env : Env) (name : String) (default : Option String) : Option String :=
  match env name with
  | some v => some v
  | none => default

namespace YandexGPTConfigManagerForAPIKey

/-- `YandexGPTConfigManagerForAPIKey._set_config_from_env_vars`: each of
model type, catalog id and API key is replaced by the corresponding
environment variable whenever that variable is present. -/
def set_config_from_env_vars (env : Env) (c : YandexGPTConfigManagerBase) :
    YandexGPTConfigManagerBase :=
  { c with
    model_type := envGet env "YANDEX_GPT_MODEL_TYPE" c.model_type
    catalog_id := envGet env "YANDEX_GPT_CATALOG_ID" c.catalog_id
    api_key := envGet env "YANDEX_GPT_API_KEY" c.api_key }

/-- `YandexGPTConfigManagerForAPIKey._check_config`: ValueError when model
type, catalog id or API key is falsy after resolution. -/
def check_config (c : YandexGPTConfigManagerBase) :
    Except String YandexGPTConfigManagerBase :=
  if !truthy c.model_type then
    .error "Model type is not set"
  else if !truthy c.catalog_id then
    .error "Catalog ID is not set"
  else if !truthy c.api_key then
    .error "API key is not set"
  else
    .ok c

/-- `YandexGPTConfigManagerForAPIKey.__init__`: store the constructor
values (no IAM token in this variant), overlay the environment variables,
then check the configuration. -/
def construct (env : Env) (model_type catalog_id api_key : Option String) :
    Except String YandexGPTConfigManagerBase :=
  check_config (set_config_from_env_vars env
    { model_type := model_type, catalog_id := catalog_id,
      iam_token := none, api_key := api_key })

end YandexGPTConfigManagerForAPIKey

namespace YandexGPTConfigManagerForIAMToken

/-- `YandexGPTConfigManagerForIAMToken._set_config_from_env_vars`: overlay
the three environment variables, then, if the IAM token is still falsy,
generate one from further environment variables and a JWT exchange over the
network; that generation is abstracted by the oracle `genIAM`, the outcome
of `_set_iam_from_env_config_and_private_key` (its token or its raised
exception's message). -/
def set_config_from_env_vars (env : Env) (genIAM : Except String String)
    (c : YandexGPTConfigManagerBase) : Except String YandexGPTConfigManagerBase :=
  let c' : YandexGPTConfigManagerBase :=
    { c with
      model_type := envGet env "YANDEX_GPT_MODEL_TYPE" c.model_type
      catalog_id := envGet env "YANDEX_GPT_CATALOG_ID" c.catalog_id
      iam_token := envGet env "YANDEX_GPT_IAM_TOKEN" c.iam_token }
  if !truthy c'.iam_token then
    match genIAM with
    | .ok tok => .ok { c' with iam_token := some tok }
    | .error e => .error e
  else
    .ok c'

/-- `YandexGPTConfigManagerForIAMToken._set_config`: when IAM token,
catalog id and model type are all truthy from the constructor, do nothing;
otherwise resolve from environment variables. -/
def set_config (env : Env) (genIAM : Except String String)
    (c : YandexGPTConfigManagerBase) : Except String YandexGPTConfigManagerBase :=
  if truthy c.iam_token && truthy c.catalog_id && truthy c.model_type then
    .ok c
  else
    set_config_from_env_vars env genIAM c

/-- `YandexGPTConfigManagerForIAMToken._check_config`: ValueError when
model type, catalog id or IAM token is falsy after resolution. -/
def check_config (c : YandexGPTConfigManagerBase) :
    Except String YandexGPTConfigManagerBase :=
  if !truthy c.model_type then
    .error "Model type is not set"
  else if !truthy c.catalog_id then
    .error "Catalog ID is not set"
  else if !truthy c.iam_token then
    .error "IAM token is not set"
  else
    .ok c

/-- `YandexGPTConfigManagerForIAMToken.__init__`: store the constructor
values (no API key in this variant), run `_set_config`, then check the
configuration. -/
def construct (env : Env) (genIAM : Except String String)
    (model_type catalog_id iam_token : Option String) :
    Except String YandexGPTConfigManagerBase :=
  (set_config env genIAM
    { model_type := model_type, catalog_id := catalog_id,
      iam_token := iam_token, api_key := none }).bind check_config

end YandexGPTConfigManagerForIAMToken

/-- `YandexGPTMessage` from `yandex_gpt.py`: a role and a text. -/
structure YandexGPTMessage where
  role : String
  text : String
deriving Repr, DecidableEq

/-- `YandexGPTThreadStatus` from `thread.py`: the current status string and
the last error message, if any. -/
structure YandexGPTThreadStatus where
  status : String
  last_error_message : Option String
deriving Repr, DecidableEq

/-- The mutable state of a `YandexGPTThread`: its message list and its
status record. -/
structure YandexGPTThread where
  messages : List YandexGPTMessage
  status : YandexGPTThreadStatus
deriving Repr, DecidableEq

/-- `YandexGPTThread.__init__` with an initial message list (an empty list
when `messages` is falsy): status "created", no last error. -/
def YandexGPTThread.init (messages : List YandexGPTMessage) : YandexGPTThread :=
  { messages := messages,
    status := { status := "created", last_error_message := none } }

/-- `YandexGPTThread.add_message`: append one role/text message to the end
of the history. -/
def add_message (t : YandexGPTThread) (role text : String) : YandexGPTThread :=
  { t with messages := t.messages ++ [{ role := role, text := text }] }

/-- The outcome of one `run` call: either a normal return carrying the
thread's post-state, or a raised exception (message plus the unchanged
thread state). -/
inductive RunResult where
  | ok (t : YandexGPTThread)
  | raised (msg : String) (t : YandexGPTThread)
deriving Repr, DecidableEq

/-- The shared body of `YandexGPTThread.run_async` and
`YandexGPTThread.run_sync` (their state logic is line-for-line identical;
they differ only in which completion backend they call, abstracted here as
the oracle `completion`, mapping the message history sent to the backend to
either the completion text or the raised exception's message):
if the status is "running", raise "Thread is already running"; otherwise
set status "running", call the completion on `self.messages`, on success
append an assistant message with the returned text, on exception set status
"error" and record `str(e)` in `last_error_message`, and in both cases
finally set status "idle". -/
def thread_run (completion : List YandexGPTMessage → Except String String)
    (t : YandexGPTThread) : RunResult :=
  if t.status.status = "running" then
    .raised "Thread is already running" t
  else
    let t1 : YandexGPTThread :=
      { t with status := { t.status with status := "running" } }
    match completion t1.messages with
    | .ok text =>
      let t2 := add_message t1 "assistant" text
      .ok { t2 with status := { t2.status with status := "idle" } }
    | .error e =>
      let t2 : YandexGPTThread :=
        { t1 with status := { status := "error", last_error_message := some e } }
      .ok { t2 with status := { t2.status with status := "idle" } }

/-- `YandexGPTThread.run_async` (asynchronous variant; same state logic as
`run_sync`, backend abstracted as `completion`). -/
def run_async (completion : List YandexGPTMessage → Except String String)
    (t : YandexGPTThread) : RunResult :=
  thread_run completion t

/-- `YandexGPTThread.run_sync` (synchronous variant; same state logic as
`run_async`, backend abstracted as `completion`). -/
def run_sync (completion : List YandexGPTMessage → Except String String)
    (t : YandexGPTThread) : RunResult :=
  thread_run completion t

/-- The body of one poll response, as read by `poll_async_completion`:
`data.get('done', False)` and the rest of the body, abstracted as a
string. -/
structure PollData where
  done : Bool
  rawBody : String
deriving Repr, DecidableEq

/-- One HTTP response observed by the poll loop: the status code and, for
200 responses, the parsed body. -/
structure PollResponse where
  httpStatus : Nat
  data : PollData
deriving Repr, DecidableEq

/-- The outcome of `YandexGPTBase.poll_async_completion`: the returned
body, a raised TimeoutError, a raised transport exception, or `exhausted`
when the finite response trace ends before the loop does (the real loop
would keep polling). -/
inductive PollOutcome where
  | success (d : PollData)
  | timeoutErr (msg : String)
  | transportErr (msg : String)
  | exhausted
deriving Repr, DecidableEq

/-- The `while True` loop of `YandexGPTBase.poll_async_completion`, run
against a finite trace of responses, each paired with the seconds that GET
takes; the event-loop clock `now` advances by each GET's duration and by
the fixed 1-second `asyncio.sleep(1)` between iterations. Returns the
outcome together with the clock value at the moment the loop ends. Each
iteration first compares the clock against the deadline `endTime` and
raises TimeoutError naming the `timeout` argument if `now > endTime`; only
then does it issue the GET: 200 with `done` true returns the body, 200 with
`done` false sleeps 1 second and retries, and a non-200 status raises
immediately. -/
def pollLoop (endTime timeout : Nat) :
    Nat → List (PollResponse × Nat) → PollOutcome × Nat
  | now, resps =>
    if now > endTime then
      (.timeoutErr ("Operation timed out after " ++ toString timeout ++ " seconds"), now)
    else
      match resps with
      | [] => (.exhausted, now)
      | (r, d) :: rest =>
        if r.httpStatus = 200 then
          if r.data.done then
            (.success r.data, now + d)
          else
            pollLoop endTime timeout (now + d + 1) rest
        else
          (.transportErr ("Failed to poll operation status, status code: "
            ++ toString r.httpStatus), now + d)

/-- `YandexGPTBase.poll_async_completion`: record the deadline
`end_time = now + timeout`, then run the poll loop. -/
def poll_async_completion (startTime timeout : Nat)
    (resps : List (PollResponse × Nat)) : PollOutcome × Nat :=
  pollLoop (startTime + timeout) timeout startTime resps

/-- C1: on a thread whose status is not "running", a run whose completion
call fails with any exception returns normally (no propagation), leaves the
message history unchanged, records the failure's description in
`last_error_message`, and ends with status "idle". -/
theorem run_failure_absorbed
    (completion : List YandexGPTMessage → Except String String)
    (t : YandexGPTThread) (e : String)
    (hs : t.status.status ≠ "running")
    (hc : completion t.messages = .error e) :
    run_async completion t =
      .ok { messages := t.messages,
            status := { status := "idle", last_error_message := some e } } ∧
    run_sync completion t =
      .ok { messages := t.messages,
            status := { status := "idle", last_error_message := some e } } := by
  constructor <;> simp [run_async, run_sync, thread_run, hs, hc]

/-- Witness for C1: a one-message idle thread run against a backend that
raises "boom" keeps its history, records "boom", and ends idle. -/
theorem run_failure_absorbed_witness :
    run_async (fun _ => Except.error "boom")
        ⟨[⟨"user", "hi"⟩], ⟨"idle", none⟩⟩ =
      .ok ⟨[⟨"user", "hi"⟩], ⟨"idle", some "boom"⟩⟩ ∧
    run_sync (fun _ => Except.error "boom")
        ⟨[⟨"user", "hi"⟩], ⟨"idle", none⟩⟩ =
      .ok ⟨[⟨"user", "hi"⟩], ⟨"idle", some "boom"⟩⟩ :=
  run_failure_absorbed (fun _ => Except.error "boom")
    ⟨[⟨"user", "hi"⟩], ⟨"idle", none⟩⟩ "boom" (by decide) rfl

/-- C2: on a thread whose status is "running", both run variants raise
"Thread is already running" and leave the thread state exactly as it was;
the result does not depend on the completion backend, so no completion
request is started. -/
theorem run_concurrent_guard
    (completion : List YandexGPTMessage → Except String String)
    (t : YandexGPTThread) (hs : t.status.status = "running") :
    run_async completion t = .raised "Thread is already running" t ∧
    run_sync completion t = .raised "Thread is already running" t := by
  constructor <;> simp [run_async, run_sync, thread_run, hs]

/-- Witness for C2: a running thread with one message and a recorded error
is returned untouched with the concurrent-run exception, for an arbitrary
concrete backend. -/
theorem run_concurrent_guard_witness :
    run_async (fun _ => Except.ok "hello")
        ⟨[⟨"user", "hi"⟩], ⟨"running", some "old"⟩⟩ =
      .raised "Thread is already running"
        ⟨[⟨"user", "hi"⟩], ⟨"running", some "old"⟩⟩ ∧
    run_sync (fun _ => Except.ok "hello")
        ⟨[⟨"user", "hi"⟩], ⟨"running", some "old"⟩⟩ =
      .raised "Thread is already running"
        ⟨[⟨"user", "hi"⟩], ⟨"running", some "old"⟩⟩ :=
  run_concurrent_guard (fun _ => Except.ok "hello")
    ⟨[⟨"user", "hi"⟩], ⟨"running", some "old"⟩⟩ rfl

/-- C3: on a thread whose status is not "running", a run whose completion
call succeeds with text `txt` appends exactly one message with role
"assistant" and text `txt` to the end of the history, leaves all earlier
messages unchanged and in order, and finishes with status "idle". -/
theorem run_success_appends
    (completion : List YandexGPTMessage → Except String String)
    (t : YandexGPTThread) (txt : String)
    (hs : t.status.status ≠ "running")
    (hc : completion t.messages = .ok txt) :
    run_async completion t =
      .ok { messages := t.messages ++ [{ role := "assistant", text := txt }],
            status := { status := "idle",
                        last_error_message := t.status.last_error_message } } ∧
    run_sync completion t =
      .ok { messages := t.messages ++ [{ role := "assistant", text := txt }],
            status := { status := "idle",
                        last_error_message := t.status.last_error_message } } := by
  constructor <;> simp [run_async, run_sync, thread_run, add_message, hs, hc]

/-- Witness for C3, the round trip of the claim: a thread holding
[("user","hi")] run against a backend returning "hello" ends with history
[("user","hi"), ("assistant","hello")] and status "idle". -/
theorem run_success_appends_witness :
    run_async (fun _ => Except.ok "hello")
        ⟨[⟨"user", "hi"⟩], ⟨"created", none⟩⟩ =
      .ok ⟨[⟨"user", "hi"⟩, ⟨"assistant", "hello"⟩], ⟨"idle", none⟩⟩ ∧
    run_sync (fun _ => Except.ok "hello")
        ⟨[⟨"user", "hi"⟩], ⟨"created", none⟩⟩ =
      .ok ⟨[⟨"user", "hi"⟩, ⟨"assistant", "hello"⟩], ⟨"idle", none⟩⟩ :=
  run_success_appends (fun _ => Except.ok "hello")
    ⟨[⟨"user", "hi"⟩], ⟨"created", none⟩⟩ "hello" (by decide) rfl

/-- C10: only a failing run writes `last_error_message`: on a thread that
has recorded a failure, a subsequent successful run leaves the stale error
description in place while the status returns to "idle". -/
theorem run_success_preserves_last_error
    (completion : List YandexGPTMessage → Except String String)
    (t : YandexGPTThread) (txt err : String)
    (hs : t.status.status ≠ "running")
    (he : t.status.last_error_message = some err)
    (hc : completion t.messages = .ok txt) :
    run_async completion t =
      .ok { messages := t.messages ++ [{ role := "assistant", text := txt }],
            status := { status := "idle", last_error_message := some err } } ∧
    run_sync completion t =
      .ok { messages := t.messages ++ [{ role := "assistant", text := txt }],
            status := { status := "idle", last_error_message := some err } } := by
  constructor <;> simp [run_async, run_sync, thread_run, add_message, hs, hc, he]

/-- Witness for C10: a thread with stale error "boom" run successfully
still carries "boom" afterwards, with status "idle". -/
theorem run_success_preserves_last_error_witness :
    run_async (fun _ => Except.ok "hello")
        ⟨[⟨"user", "hi"⟩], ⟨"idle", some "boom"⟩⟩ =
      .ok ⟨[⟨"user", "hi"⟩, ⟨"assistant", "hello"⟩], ⟨"idle", some "boom"⟩⟩ ∧
    run_sync (fun _ => Except.ok "hello")
        ⟨[⟨"user", "hi"⟩], ⟨"idle", some "boom"⟩⟩ =
      .ok ⟨[⟨"user", "hi"⟩, ⟨"assistant", "hello"⟩], ⟨"idle", some "boom"⟩⟩ :=
  run_success_preserves_last_error (fun _ => Except.ok "hello")
    ⟨[⟨"user", "hi"⟩], ⟨"idle", some "boom"⟩⟩ "hello" "boom" (by decide) rfl rfl


/-- C4: in the async poll loop with the deadline recorded up front, (i) a
failed deadline check (`now > endTime`) raises TimeoutError at once, for
any remaining responses, without issuing a GET (the clock does not
advance); (ii) an iteration beginning at or before the deadline issues its
GET, and an HTTP-200 response with `done` true returns the body
immediately; (iii) an HTTP-200 response with `done` false is followed by a
fixed 1-second wait before the next iteration; (iv) a non-200 response
raises a transport failure immediately, ignoring all remaining responses
(no retry). -/
theorem poll_loop_ordering (endTime timeout now : Nat) (r : PollResponse)
    (d : Nat) (rest resps : List (PollResponse × Nat)) :
    (now > endTime →
      pollLoop endTime timeout now resps =
        (.timeoutErr ("Operation timed out after " ++ toString timeout
          ++ " seconds"), now)) ∧
    (¬ now > endTime → r.httpStatus = 200 → r.data.done = true →
      pollLoop endTime timeout now ((r, d) :: rest) =
        (.success r.data, now + d)) ∧
    (¬ now > endTime → r.httpStatus = 200 → r.data.done = false →
      pollLoop endTime timeout now ((r, d) :: rest) =
        pollLoop endTime timeout (now + d + 1) rest) ∧
    (¬ now > endTime → r.httpStatus ≠ 200 →
      pollLoop endTime timeout now ((r, d) :: rest) =
        (.transportErr ("Failed to poll operation status, status code: "
          ++ toString r.httpStatus), now + d)) := by
  refine ⟨fun h => ?_, fun h h200 hdone => ?_, fun h h200 hdone => ?_,
    fun h h200 => ?_⟩
  · cases resps with
    | nil => simp [pollLoop, h]
    | cons hd tl => obtain ⟨r', d'⟩ := hd; simp [pollLoop, h]
  · simp [pollLoop, h, h200, hdone]
  · simp [pollLoop, h, h200, hdone]
  · simp [pollLoop, h, h200]

/-- Witness for C4: concrete instances of all four branches, including a
poll issued exactly at the deadline (`now = endTime`). -/
theorem poll_loop_ordering_witness :
    pollLoop 5 5 6 [(⟨200, ⟨true, "b"⟩⟩, 1)] =
      (.timeoutErr "Operation timed out after 5 seconds", 6) ∧
    pollLoop 5 5 5 [(⟨200, ⟨true, "b"⟩⟩, 1)] = (.success ⟨true, "b"⟩, 6) ∧
    pollLoop 5 5 0 [(⟨200, ⟨false, "b"⟩⟩, 1), (⟨200, ⟨true, "c"⟩⟩, 1)] =
      pollLoop 5 5 2 [(⟨200, ⟨true, "c"⟩⟩, 1)] ∧
    pollLoop 5 5 0 [(⟨500, ⟨false, "b"⟩⟩, 1)] =
      (.transportErr "Failed to poll operation status, status code: 500", 1) :=
  ⟨(poll_loop_ordering 5 5 6 ⟨200, ⟨true, "b"⟩⟩ 1 []
      [(⟨200, ⟨true, "b"⟩⟩, 1)]).1 (by decide),
   (poll_loop_ordering 5 5 5 ⟨200, ⟨true, "b"⟩⟩ 1 [] []).2.1
      (by decide) rfl rfl,
   (poll_loop_ordering 5 5 0 ⟨200, ⟨false, "b"⟩⟩ 1
      [(⟨200, ⟨true, "c"⟩⟩, 1)] []).2.2.1 (by decide) rfl rfl,
   (poll_loop_ordering 5 5 0 ⟨500, ⟨false, "b"⟩⟩ 1 [] []).2.2.2
      (by decide) (by decide)⟩

/-- Every TimeoutError produced by the poll loop carries the message built
from the configured `timeout` argument, whatever the clock reads at the
moment of failure. -/
theorem pollLoop_timeout_message (endTime timeout : Nat)
    (resps : List (PollResponse × Nat)) :
    ∀ (now fin : Nat) (m : String),
      pollLoop endTime timeout now resps = (.timeoutErr m, fin) →
      m = "Operation timed out after " ++ toString timeout ++ " seconds" := by
  induction resps with
  | nil =>
    intro now fin m h
    simp only [pollLoop] at h
    split at h
    · simp only [Prod.mk.injEq, PollOutcome.timeoutErr.injEq] at h
      exact h.1.symm
    · simp at h
  | cons hd rest ih =>
    obtain ⟨r, d⟩ := hd
    intro now fin m h
    simp only [pollLoop] at h
    split at h
    · simp only [Prod.mk.injEq, PollOutcome.timeoutErr.injEq] at h
      exact h.1.symm
    · split at h
      · split at h
        · simp at h
        · exact ih _ _ _ h
      · simp at h

/-- Counterexample to C9: with start time 0, timeout 3 and GETs taking 2
seconds each, the loop fails at clock 6 — 6 seconds actually elapsed — yet
the TimeoutError message says "after 3 seconds": it names the configured
timeout, not the elapsed time. -/
theorem poll_timeout_elapsed_counterexample :
    poll_async_completion 0 3
        [(⟨200, ⟨false, "b"⟩⟩, 2), (⟨200, ⟨false, "b"⟩⟩, 2)] =
      (.timeoutErr "Operation timed out after 3 seconds", 6) ∧
    (6 - 0 ≠ 3) ∧
    "Operation timed out after 3 seconds" ≠
      "Operation timed out after " ++ toString (6 - 0) ++ " seconds" :=
  ⟨rfl, by decide, by decide⟩

/-- C9 (amended): whenever `poll_async_completion` fails with a
TimeoutError, the message names the configured timeout in seconds (not the
time actually spent polling). -/
theorem poll_async_completion_timeout_message (startTime timeout fin : Nat)
    (resps : List (PollResponse × Nat)) (m : String)
    (h : poll_async_completion startTime timeout resps =
      (.timeoutErr m, fin)) :
    m = "Operation timed out after " ++ toString timeout ++ " seconds" :=
  pollLoop_timeout_message (startTime + timeout) timeout resps startTime fin m h

/-- Witness for C9 (amended): the run of the counterexample's shape indeed
times out, and the theorem applies to it. -/
theorem poll_async_completion_timeout_message_witness :
    poll_async_completion 0 3
        [(⟨200, ⟨false, "b"⟩⟩, 2), (⟨200, ⟨false, "b"⟩⟩, 2)] =
      (.timeoutErr "Operation timed out after 3 seconds", 6) ∧
    "Operation timed out after 3 seconds" =
      "Operation timed out after " ++ toString 3 ++ " seconds" :=
  ⟨rfl, poll_async_completion_timeout_message 0 3 6
    [(⟨200, ⟨false, "b"⟩⟩, 2), (⟨200, ⟨false, "b"⟩⟩, 2)]
    "Operation timed out after 3 seconds" rfl⟩

/-- Every member of `available_models` is a nonempty string, hence truthy. -/
theorem isEmpty_false_of_available (m : String)
    (h : available_models.contains m = true) : m.isEmpty = false := by
  simp [available_models] at h
  rcases h with h | h | h <;> subst h <;> rfl

/-- A string different from `""` has `isEmpty = false`. -/
theorem isEmpty_false_of_ne (k : String) (hne : k ≠ "") :
    k.isEmpty = false := by
  cases hk : k.isEmpty
  · rfl
  · exact absurd ((String.isEmpty_iff k).mp hk) hne

/-- C5: the authorization header value is "Bearer " + token whenever a
(nonempty) IAM token is set, regardless of the API key; "Api-Key " + key
when the IAM token is falsy and a (nonempty) API key is set; and a
ValueError (the ConfigurationError of the spec) when both are falsy. -/
theorem authorization_field_spec (c : YandexGPTConfigManagerBase)
    (tok k : String) :
    (c.iam_token = some tok → tok ≠ "" →
      completion_request_authorization_field c = .ok ("Bearer " ++ tok)) ∧
    (truthy c.iam_token = false → c.api_key = some k → k ≠ "" →
      completion_request_authorization_field c = .ok ("Api-Key " ++ k)) ∧
    (truthy c.iam_token = false → truthy c.api_key = false →
      completion_request_authorization_field c =
        .error "IAM token or API key is not set") := by
  refine ⟨fun hi hne => ?_, fun hi ha hne => ?_, fun hi ha => ?_⟩
  · simp [completion_request_authorization_field, truthy, hi,
      isEmpty_false_of_ne tok hne]
  · simp only [completion_request_authorization_field, hi]
    simp [truthy, ha, isEmpty_false_of_ne k hne]
  · simp [completion_request_authorization_field, hi, ha]

/-- Witness for C5: with both credentials present the bearer token wins;
with only an API key the Api-Key form is produced; with neither, the
accessor fails. -/
theorem authorization_field_spec_witness :
    completion_request_authorization_field
      ⟨some "yandexgpt", some "cat1", some "tok", some "key"⟩ =
        .ok "Bearer tok" ∧
    completion_request_authorization_field
      ⟨some "yandexgpt", some "cat1", none, some "key"⟩ =
        .ok "Api-Key key" ∧
    completion_request_authorization_field
      ⟨some "yandexgpt", some "cat1", none, none⟩ =
        .error "IAM token or API key is not set" :=
  ⟨(authorization_field_spec
      ⟨some "yandexgpt", some "cat1", some "tok", some "key"⟩ "tok" "key").1
      rfl (by decide),
   (authorization_field_spec
      ⟨some "yandexgpt", some "cat1", none, some "key"⟩ "tok" "key").2.1
      rfl rfl (by decide),
   (authorization_field_spec
      ⟨some "yandexgpt", some "cat1", none, none⟩ "tok" "key").2.2 rfl rfl⟩

/-- Counterexample to C6: a configuration with both credentials absent but
catalog id "cat1" and model "yandexgpt" set: the catalog accessor and the
model-URI accessor succeed rather than fail — only the authorization
accessor depends on the credentials. -/
theorem accessors_missing_credentials_counterexample :
    (YandexGPTConfigManagerBase.iam_token
        ⟨some "yandexgpt", some "cat1", none, none⟩ = none ∧
      YandexGPTConfigManagerBase.api_key
        ⟨some "yandexgpt", some "cat1", none, none⟩ = none) ∧
    completion_request_catalog_id_field
      ⟨some "yandexgpt", some "cat1", none, none⟩ = .ok "cat1" ∧
    completion_request_model_type_uri_field
      ⟨some "yandexgpt", some "cat1", none, none⟩ =
        .ok "gpt://cat1/yandexgpt/latest" :=
  ⟨⟨rfl, rfl⟩, rfl, rfl⟩

/-- C6 (amended): with both credentials absent, the authorization accessor
fails with a ValueError; the catalog accessor fails exactly when the
catalog id is itself falsy, and the model-URI accessor fails exactly when
the model type is not in the available set or the catalog id is falsy. -/
theorem accessors_missing_credentials (c : YandexGPTConfigManagerBase)
    (hi : truthy c.iam_token = false) (ha : truthy c.api_key = false) :
    completion_request_authorization_field c =
      .error "IAM token or API key is not set" ∧
    (truthy c.catalog_id = false →
      completion_request_catalog_id_field c = .error "Catalog ID is not set") ∧
    (truthy c.catalog_id = true →
      completion_request_catalog_id_field c = .ok (c.catalog_id.getD "")) ∧
    (model_type_in_available c = false →
      completion_request_model_type_uri_field c =
        .error ("Model type " ++ (c.model_type.getD "None")
          ++ " is not supported")) ∧
    (model_type_in_available c = true → truthy c.catalog_id = false →
      completion_request_model_type_uri_field c =
        .error "Model type or catalog ID is not set") ∧
    (model_type_in_available c = true → truthy c.catalog_id = true →
      completion_request_model_type_uri_field c =
        .ok ("gpt://" ++ c.catalog_id.getD "" ++ "/"
          ++ c.model_type.getD "" ++ "/latest")) := by
  have hmodel : model_type_in_available c = true → truthy c.model_type = true := by
    intro hm
    cases hmt : c.model_type with
    | none => simp [model_type_in_available, hmt] at hm
    | some m =>
      simp only [model_type_in_available, hmt] at hm
      simp [truthy, hmt, isEmpty_false_of_available m hm]
  refine ⟨?_, fun hc => ?_, fun hc => ?_, fun hm => ?_, fun hm hc => ?_,
    fun hm hc => ?_⟩
  · simp [completion_request_authorization_field, hi, ha]
  · simp [completion_request_catalog_id_field, hc]
  · simp [completion_request_catalog_id_field, hc]
  · simp [completion_request_model_type_uri_field, hm]
  · simp [completion_request_model_type_uri_field, hm, hc]
  · simp [completion_request_model_type_uri_field, hm, hc, hmodel hm]

/-- Witness for C6 (amended): on the counterexample's configuration the
authorization accessor fails while the other two succeed on their own
terms. -/
theorem accessors_missing_credentials_witness :
    completion_request_authorization_field
      ⟨some "yandexgpt", some "cat1", none, none⟩ =
        .error "IAM token or API key is not set" ∧
    completion_request_catalog_id_field
      ⟨some "yandexgpt", some "cat1", none, none⟩ = .ok "cat1" ∧
    completion_request_model_type_uri_field
      ⟨some "yandexgpt", some "cat1", none, none⟩ =
        .ok "gpt://cat1/yandexgpt/latest" :=
  ⟨(accessors_missing_credentials
      ⟨some "yandexgpt", some "cat1", none, none⟩ rfl rfl).1,
   (accessors_missing_credentials
      ⟨some "yandexgpt", some "cat1", none, none⟩ rfl rfl).2.2.1 rfl,
   (accessors_missing_credentials
      ⟨some "yandexgpt", some "cat1", none, none⟩ rfl rfl).2.2.2.2.2 rfl rfl⟩

/-- A configuration whose model type passes the `available_models` check
has a truthy model type. -/
theorem truthy_model_of_available (c : YandexGPTConfigManagerBase)
    (hm : model_type_in_available c = true) : truthy c.model_type = true := by
  cases hmt : c.model_type with
  | none => simp [model_type_in_available, hmt] at hm
  | some m =>
    simp only [model_type_in_available, hmt] at hm
    simp [truthy, hmt, isEmpty_false_of_available m hm]

/-- C7: with model type in the available set and a (nonempty) catalog id,
the model-URI accessor returns "gpt://" + catalog + "/" + model +
"/latest"; with a model type outside the set it fails naming the model;
with a valid model but falsy catalog id it fails with the missing-field
ValueError. -/
theorem model_uri_spec (c : YandexGPTConfigManagerBase) (m a : String) :
    (c.model_type = some m → available_models.contains m = true →
      c.catalog_id = some a → a ≠ "" →
      completion_request_model_type_uri_field c =
        .ok ("gpt://" ++ a ++ "/" ++ m ++ "/latest")) ∧
    (model_type_in_available c = false →
      completion_request_model_type_uri_field c =
        .error ("Model type " ++ (c.model_type.getD "None")
          ++ " is not supported")) ∧
    (model_type_in_available c = true → truthy c.catalog_id = false →
      completion_request_model_type_uri_field c =
        .error "Model type or catalog ID is not set") := by
  refine ⟨fun hmt hmm hca hane => ?_, fun hm => ?_, fun hm hc => ?_⟩
  · have hmem : m ∈ available_models := List.mem_of_elem_eq_true hmm
    simp [completion_request_model_type_uri_field, model_type_in_available,
      hmt, hca, hmm, hmem, truthy, isEmpty_false_of_available m hmm,
      isEmpty_false_of_ne a hane]
  · simp [completion_request_model_type_uri_field, hm]
  · simp [completion_request_model_type_uri_field, hm, hc,
      truthy_model_of_available c hm]

/-- Witness for C7: the claim's concrete example, a model outside the set,
and a missing catalog id. -/
theorem model_uri_spec_witness :
    completion_request_model_type_uri_field
      ⟨some "yandexgpt-lite", some "cat1", none, none⟩ =
        .ok "gpt://cat1/yandexgpt-lite/latest" ∧
    completion_request_model_type_uri_field
      ⟨some "gpt-4", some "cat1", none, none⟩ =
        .error "Model type gpt-4 is not supported" ∧
    completion_request_model_type_uri_field
      ⟨some "yandexgpt", none, none, none⟩ =
        .error "Model type or catalog ID is not set" :=
  ⟨(model_uri_spec ⟨some "yandexgpt-lite", some "cat1", none, none⟩
      "yandexgpt-lite" "cat1").1 rfl rfl rfl (by decide),
   (model_uri_spec ⟨some "gpt-4", some "cat1", none, none⟩
      "gpt-4" "cat1").2.1 rfl,
   (model_uri_spec ⟨some "yandexgpt", none, none, none⟩
      "yandexgpt" "cat1").2.2 rfl rfl⟩

/-- A concrete environment for the C8 counterexample: only
YANDEX_GPT_IAM_TOKEN is present. -/
def envWithIamToken : Env := fun n =>
  if n = "YANDEX_GPT_IAM_TOKEN" then some "env-token" else none

/-- Counterexample to C8: constructing the IAM-token resolver with all
three constructor values set, while YANDEX_GPT_IAM_TOKEN is present in the
environment with a different value, yields a configuration carrying the
constructor's token, not the environment's: the IAM variant's `_set_config`
skips the environment entirely when all constructor values are set. -/
theorem env_override_counterexample :
    envWithIamToken "YANDEX_GPT_IAM_TOKEN" = some "env-token" ∧
    YandexGPTConfigManagerForIAMToken.construct envWithIamToken
        (.error "no generation") (some "yandexgpt") (some "cat1")
        (some "ctor-token") =
      .ok ⟨some "yandexgpt", some "cat1", some "ctor-token", none⟩ ∧
    (some "ctor-token" : Option String) ≠ some "env-token" :=
  ⟨rfl, rfl, by decide⟩

/-- C8 (amended): in the API-key variant, a present environment variable
overrides the constructor value for each of model type, catalog id and API
key; in the IAM-token variant, when the constructor already supplies truthy
IAM token, catalog id and model type the environment is ignored and the
constructor values stand, and only otherwise does a present (nonempty)
YANDEX_GPT_IAM_TOKEN (with the other two variables) override the
constructor values. -/
theorem env_override_spec (env : Env) (mt cid ak iam : Option String)
    (genIAM : Except String String) (v : String) :
    (env "YANDEX_GPT_MODEL_TYPE" = some v →
      (YandexGPTConfigManagerForAPIKey.set_config_from_env_vars env
        ⟨mt, cid, none, ak⟩).model_type = some v) ∧
    (env "YANDEX_GPT_CATALOG_ID" = some v →
      (YandexGPTConfigManagerForAPIKey.set_config_from_env_vars env
        ⟨mt, cid, none, ak⟩).catalog_id = some v) ∧
    (env "YANDEX_GPT_API_KEY" = some v →
      (YandexGPTConfigManagerForAPIKey.set_config_from_env_vars env
        ⟨mt, cid, none, ak⟩).api_key = some v) ∧
    (truthy iam = true → truthy cid = true → truthy mt = true →
      YandexGPTConfigManagerForIAMToken.set_config env genIAM
        ⟨mt, cid, iam, none⟩ = .ok ⟨mt, cid, iam, none⟩) ∧
    (truthy iam = false → env "YANDEX_GPT_IAM_TOKEN" = some v → v ≠ "" →
      YandexGPTConfigManagerForIAMToken.set_config env genIAM
        ⟨mt, cid, iam, none⟩ =
      .ok ⟨envGet env "YANDEX_GPT_MODEL_TYPE" mt,
           envGet env "YANDEX_GPT_CATALOG_ID" cid, some v, none⟩) := by
  refine ⟨fun h => ?_, fun h => ?_, fun h => ?_, fun h1 h2 h3 => ?_,
    fun hiam henv hne => ?_⟩
  · simp [YandexGPTConfigManagerForAPIKey.set_config_from_env_vars, envGet, h]
  · simp [YandexGPTConfigManagerForAPIKey.set_config_from_env_vars, envGet, h]
  · simp [YandexGPTConfigManagerForAPIKey.set_config_from_env_vars, envGet, h]
  · simp [YandexGPTConfigManagerForIAMToken.set_config, h1, h2, h3]
  · have hcond : (truthy iam && truthy cid && truthy mt) = false := by
      simp [hiam]
    simp only [YandexGPTConfigManagerForIAMToken.set_config, hcond,
      Bool.false_eq_true, if_false]
    simp [YandexGPTConfigManagerForIAMToken.set_config_from_env_vars,
      envGet, henv, truthy, isEmpty_false_of_ne v hne]

/-- Witness for C8 (amended): concrete instances of each branch — the
API-key variant's three overrides, the IAM variant keeping constructor
values, and the IAM variant taking the environment token when the
constructor's token is missing. -/
theorem env_override_spec_witness :
    (YandexGPTConfigManagerForAPIKey.set_config_from_env_vars
        (fun n => if n = "YANDEX_GPT_MODEL_TYPE" then some "envmodel" else none)
        ⟨some "ctormodel", some "ctorcat", none, some "ctorkey"⟩).model_type =
      some "envmodel" ∧
    (YandexGPTConfigManagerForAPIKey.set_config_from_env_vars
        (fun n => if n = "YANDEX_GPT_CATALOG_ID" then some "envcat" else none)
        ⟨some "ctormodel", some "ctorcat", none, some "ctorkey"⟩).catalog_id =
      some "envcat" ∧
    (YandexGPTConfigManagerForAPIKey.set_config_from_env_vars
        (fun n => if n = "YANDEX_GPT_API_KEY" then some "envkey" else none)
        ⟨some "ctormodel", some "ctorcat", none, some "ctorkey"⟩).api_key =
      some "envkey" ∧
    YandexGPTConfigManagerForIAMToken.set_config envWithIamToken
        (.error "no generation")
        ⟨some "yandexgpt", some "cat1", some "ctor-token", none⟩ =
      .ok ⟨some "yandexgpt", some "cat1", some "ctor-token", none⟩ ∧
    YandexGPTConfigManagerForIAMToken.set_config envWithIamToken
        (.error "no generation")
        ⟨some "yandexgpt", some "cat1", none, none⟩ =
      .ok ⟨some "yandexgpt", some "cat1", some "env-token", none⟩ :=
  ⟨(env_override_spec
      (fun n => if n = "YANDEX_GPT_MODEL_TYPE" then some "envmodel" else none)
      (some "ctormodel") (some "ctorcat") (some "ctorkey") none
      (.error "e") "envmodel").1 rfl,
   (env_override_spec
      (fun n => if n = "YANDEX_GPT_CATALOG_ID" then some "envcat" else none)
      (some "ctormodel") (some "ctorcat") (some "ctorkey") none
      (.error "e") "envcat").2.1 rfl,
   (env_override_spec
      (fun n => if n = "YANDEX_GPT_API_KEY" then some "envkey" else none)
      (some "ctormodel") (some "ctorcat") (some "ctorkey") none
      (.error "e") "envkey").2.2.1 rfl,
   (env_override_spec envWithIamToken (some "yandexgpt") (some "cat1") none
      (some "ctor-token") (.error "no generation") "env-token").2.2.2.1
      rfl rfl rfl,
   (env_override_spec envWithIamToken (some "yandexgpt") (some "cat1") none
      none (.error "no generation") "env-token").2.2.2.2
      rfl rfl (by decide)⟩
